import Mathlib

/-!
Verification of the AgritradeHub backend (ayushdixit1-av/backend).

The development shallowly embeds the two server variants that the claims
refer to:

* the stateless JSON API of `src/server.js` (register, login, list users,
  product seeding), and
* the session-based variant of `src/unnamed/part_002` (form register/login,
  role-guarded dashboards, logout, express-session store).

Relational state (the `users` and `products` tables created by
`initializeDB`) is embedded as lists of rows plus the serial-id counters.
PostgreSQL behaviour that the handlers rely on is modelled explicitly:

* `INSERT INTO users ...` hits the `UNIQUE` constraint on `email`
  (error code 23505) exactly when a stored row already carries that email;
* `INSERT INTO products ... ON CONFLICT DO NOTHING` suppresses a row only
  when some unique constraint is violated; the `products` table declares a
  single unique constraint — the serial primary key `id` — and the serial
  id of a new row is always fresh, so the insert always adds the row;
* `SELECT ... ORDER BY id` sorts the returned rows by their id.

bcrypt is given its idealized functional semantics: `bcrypt.hash(p, 10)`
produces a tagged value from which `bcrypt.compare(q, h)` succeeds exactly
when `q` is the password the hash was derived from.

JavaScript truthiness on the request-body strings is modelled by comparing
with the empty string: a missing field and an empty field are both falsy
in the guards `if (!name || !email || !password)`.
-/

/-! ### JSON response bodies -/

/-- JSON values, used for the bodies that the Express handlers pass to
`res.json(...)` and for EJS view data. -/
inductive Json where
  | str : String → Json
  | nat : Nat → Json
  | arr : List Json → Json
  | obj : List (String × Json) → Json

/-- The elements of a JSON array (empty for non-arrays). -/
def Json.elems : Json → List Json
  | .arr xs => xs
  | _ => []

/-- The keys of a JSON object (empty for non-objects). -/
def Json.keys : Json → List String
  | .obj fs => fs.map (fun f => f.1)
  | _ => []

/-- Look up a key in a JSON object. -/
def Json.get? : Json → String → Option Json
  | .obj fs, k => (fs.find? (fun f => f.1 == k)).map (fun f => f.2)
  | _, _ => none

/-- An HTTP response of the stateless API: `res.status(s).json(body)`. -/
structure Response where
  status : Nat
  body : Json

/-! ### bcrypt (idealized) -/

/-- Idealized model of a bcrypt digest as produced by
`bcrypt.hash(password, 10)`: the cost factor together with the password the
digest was derived from.  (The real digest embeds a random salt; the salt
does not affect any property proved here, and `bcrypt.compare` succeeds
exactly when the candidate password matches the one that was hashed.) -/
structure Bcrypt where
  cost : Nat
  input : String

/-- `bcrypt.hash(password, 10)` (src/server.js line 114). -/
def bcryptHash (password : String) : Bcrypt := ⟨10, password⟩

/-- `bcrypt.compare(password, hash)` (src/server.js line 145): true exactly
when `password` is the password the digest was derived from. -/
def bcryptCompare (password : String) (h : Bcrypt) : Bool :=
  password == h.input

/-! ### The relational store (`initializeDB`, src/server.js lines 36-57) -/

/-- A row of the `users` table:
`id SERIAL PRIMARY KEY, name, email UNIQUE, password_hash, role DEFAULT 'user'`
(the immutable `created_at` timestamp is not modelled; no handler reads it). -/
structure UserRow where
  id : Nat
  name : String
  email : String
  password_hash : Bcrypt
  role : String

/-- A row of the `products` table:
`id SERIAL PRIMARY KEY, name NOT NULL, price NOT NULL, image_url NOT NULL`.
Note that the schema declares **no** unique constraint on `name`; the only
unique constraint of the table is the primary key `id`. -/
structure ProductRow where
  id : Nat
  name : String
  price : String
  image_url : String

/-- The database state: the two tables plus the next value of each serial
`id` sequence. -/
structure DB where
  users : List UserRow
  nextUserId : Nat
  products : List ProductRow
  nextProductId : Nat

/-- The freshly initialized database: both tables empty, serial sequences
at 1. -/
def emptyDB : DB := ⟨[], 1, [], 1⟩

/-- Whether a stored user already carries the given email — this is exactly
the condition under which `INSERT INTO users` violates the `UNIQUE`
constraint on `email` and pg raises error code 23505. -/
def emailTaken (db : DB) (e : String) : Bool :=
  db.users.any (fun u => u.email == e)

/-- Insert an element into a list sorted by a numeric key. -/
def insertSorted {α : Type} (key : α → Nat) (x : α) : List α → List α
  | [] => [x]
  | y :: ys => if key x ≤ key y then x :: y :: ys else y :: insertSorted key x ys

/-- `SELECT ... ORDER BY id`: the rows of a table sorted by a numeric key
(insertion sort). -/
def orderById {α : Type} (key : α → Nat) (l : List α) : List α :=
  l.foldr (insertSorted key) []

/-! ### Stateless API handlers (src/server.js) -/

/-- The JSON body of `POST /api/register`.  The handler destructures only
`name`, `email` and `password` (`const { name, email, password } = req.body`,
line 108); a `role` field, if the client sends one, is present in the body
but never read.  A missing field and an empty field are both falsy. -/
structure RegisterBody where
  name : String
  email : String
  password : String
  role : Option String := none

/-- `POST /api/register` (src/server.js lines 107-130).  Returns the HTTP
response and the database state after the call.
* missing/empty field → `400 {error: "Name, email, and password are required."}`,
  no write;
* duplicate email → pg raises 23505, caught → `409 {error: "Email already registered"}`,
  no write;
* otherwise insert `(name, email, bcrypt hash)`; `role` takes the schema
  default `'user'`; respond `201` with the `RETURNING id, name, email, role`
  projection. -/
def apiRegister (db : DB) (b : RegisterBody) : Response × DB :=
  if b.name = "" ∨ b.email = "" ∨ b.password = "" then
    (⟨400, Json.obj [("error", Json.str "Name, email, and password are required.")]⟩, db)
  else if emailTaken db b.email then
    (⟨409, Json.obj [("error", Json.str "Email already registered")]⟩, db)
  else
    (⟨201, Json.obj
        [("message", Json.str "User registered successfully"),
         ("user", Json.obj
            [("id", Json.nat db.nextUserId),
             ("name", Json.str b.name),
             ("email", Json.str b.email),
             ("role", Json.str "user")])]⟩,
     { db with
        users := db.users ++ [⟨db.nextUserId, b.name, b.email, bcryptHash b.password, "user"⟩],
        nextUserId := db.nextUserId + 1 })

/-- `POST /api/login` (src/server.js lines 133-155).  The database is not
modified by a login.
* missing/empty field → `400 {error: "Email and password required"}`;
* `SELECT * FROM users WHERE email=$1` empty → `401 {error: "Invalid credentials"}`;
* `bcrypt.compare` fails → the same `401 {error: "Invalid credentials"}`;
* otherwise `200` with message and the `{id, name, email, role}` projection. -/
def apiLogin (db : DB) (email password : String) : Response :=
  if email = "" ∨ password = "" then
    ⟨400, Json.obj [("error", Json.str "Email and password required")]⟩
  else
    match db.users.find? (fun u => u.email == email) with
    | none => ⟨401, Json.obj [("error", Json.str "Invalid credentials")]⟩
    | some u =>
      if bcryptCompare password u.password_hash then
        ⟨200, Json.obj
          [("message", Json.str "Login successful"),
           ("user", Json.obj
              [("id", Json.nat u.id),
               ("name", Json.str u.name),
               ("email", Json.str u.email),
               ("role", Json.str u.role)])]⟩
      else ⟨401, Json.obj [("error", Json.str "Invalid credentials")]⟩

/-- `GET /api/users` (src/server.js lines 158-168):
`SELECT id, name, email FROM users ORDER BY id`, returned as a JSON array of
objects with exactly those three columns. -/
def apiUsers (db : DB) : Response :=
  ⟨200, Json.arr ((orderById UserRow.id db.users).map (fun u =>
      Json.obj [("id", Json.nat u.id), ("name", Json.str u.name),
                ("email", Json.str u.email)]))⟩

/-! ### Product seeding (src/server.js lines 59-104) -/

/-- `INSERT INTO products (name, price, image_url) VALUES ($1,$2,$3)
ON CONFLICT DO NOTHING`.  `ON CONFLICT` with no conflict target arbitrates
over every unique constraint of the table; `products` declares exactly one —
the serial primary key `id` — and the id assigned to the new row is the
fresh next value of the sequence, so no conflict ever arises and the row is
always inserted. -/
def insertProductOnConflict (db : DB) (name price url : String) : DB :=
  { db with
      products := db.products ++ [⟨db.nextProductId, name, price, url⟩],
      nextProductId := db.nextProductId + 1 }

/-- The six example products of `seedProducts` (src/server.js lines 61-92),
as `(name, price, image_url)` triples in source order. -/
def seedList : List (String × String × String) :=
  [("Organic Apples", "$2.50/lb", "https://placehold.co/400x300/4CAF50/ffffff?text=Apples"),
   ("Fresh Carrots", "$1.80/lb", "https://placehold.co/400x300/FF5722/ffffff?text=Carrots"),
   ("Farm Eggs", "$4.00/dozen", "https://placehold.co/400x300/FBC02D/ffffff?text=Eggs"),
   ("Local Honey", "$8.00/jar", "https://placehold.co/400x300/FF9800/ffffff?text=Honey"),
   ("Red Potatoes", "$2.00/lb", "https://placehold.co/400x300/BDBDBD/ffffff?text=Potatoes"),
   ("Heirloom Tomatoes", "$3.50/lb", "https://placehold.co/400x300/F44336/ffffff?text=Tomatoes")]

/-- `seedProducts` (src/server.js lines 60-104): insert each example product
in order with `ON CONFLICT DO NOTHING`.  It runs on every server start
(`startServer`, line 221). -/
def seedProducts (db : DB) : DB :=
  seedList.foldl (fun d prod => insertProductOnConflict d prod.1 prod.2.1 prod.2.2) db

/-! ### Session-based variant (src/unnamed/part_002) -/

/-- The principal stored in `req.session.user`: the
`{id, name, email, role}` projection of a user row (part_002 lines 206 and
235) — never the password hash. -/
structure Principal where
  id : Nat
  name : String
  email : String
  role : String

/-- JSON view of a principal, as passed to the EJS templates. -/
def principalJson (p : Principal) : Json :=
  Json.obj [("id", Json.nat p.id), ("name", Json.str p.name),
            ("email", Json.str p.email), ("role", Json.str p.role)]

/-- JSON view of a product row, as passed to the EJS templates. -/
def productJson (r : ProductRow) : Json :=
  Json.obj [("id", Json.nat r.id), ("name", Json.str r.name),
            ("price", Json.str r.price), ("image_url", Json.str r.image_url)]

/-- A response of the server-rendered variant: a redirect
(`res.redirect(url)`), a rendered template (`res.render(view, data)`), or a
plain status send (`res.status(s).send(text)`). -/
inductive SResponse where
  | redirect : String → SResponse
  | render : String → Json → SResponse
  | send : Nat → String → SResponse

/-- `POST /register` of the session variant (part_002 lines 195-216).
The handler destructures `name`, `email`, `password` **and** `role` from the
form body; a falsy submitted role defaults to `'user'`
(`role || 'user'`, line 204).  Returns the response, the database after the
call, and the principal stored into `req.session.user` (none when no session
is established).  On success the redirect is unconditionally to
`/user/dashboard` (line 207). -/
def sessionRegister (db : DB) (name email password role : String) :
    SResponse × DB × Option Principal :=
  if name = "" ∨ email = "" ∨ password = "" then
    (.redirect "/register?error=Name, email, and password are required.", db, none)
  else if emailTaken db email then
    (.redirect "/register?error=Email already registered", db, none)
  else
    (.redirect "/user/dashboard",
     { db with
        users := db.users ++
          [⟨db.nextUserId, name, email, bcryptHash password,
            if role = "" then "user" else role⟩],
        nextUserId := db.nextUserId + 1 },
     some ⟨db.nextUserId, name, email, if role = "" then "user" else role⟩)

/-- `POST /login` of the session variant (part_002 lines 219-246).  On a
match the `{id, name, email, role}` principal is stored in the session and
the redirect depends on the role: `'farm'` → `/farm/dashboard`, anything
else → `/user/dashboard` (lines 237-241). -/
def sessionLogin (db : DB) (email password : String) :
    SResponse × Option Principal :=
  if email = "" ∨ password = "" then
    (.redirect "/login?error=Email and password required", none)
  else
    match db.users.find? (fun u => u.email == email) with
    | none => (.redirect "/login?error=Invalid credentials", none)
    | some u =>
      if bcryptCompare password u.password_hash then
        (if u.role = "farm" then .redirect "/farm/dashboard"
         else .redirect "/user/dashboard",
         some ⟨u.id, u.name, u.email, u.role⟩)
      else (.redirect "/login?error=Invalid credentials", none)

/-- `GET /user/dashboard` (part_002 lines 159-170).  The guard
`if (!req.session.user || req.session.user.role !== 'user')` redirects to
the login page with a uniform error; otherwise the dashboard is rendered
with the session user and `SELECT * FROM products ORDER BY id`. -/
def userDashboard (sess : Option Principal) (db : DB) : SResponse :=
  match sess with
  | none => .redirect "/login?error=Unauthorized access"
  | some p =>
    if p.role = "user" then
      .render "user_dashboard.ejs"
        (Json.obj [("user", principalJson p),
                   ("products", Json.arr ((orderById ProductRow.id db.products).map productJson))])
    else .redirect "/login?error=Unauthorized access"

/-! ### The express-session store as a state machine

The session middleware (part_002 lines 35-46) keys server-side session rows
by an opaque random `sid` carried in the client cookie; `req.session.destroy`
(`POST /logout`, lines 185-192) deletes the row for the presented sid.  The
sid generator never re-issues a previously issued token; this freshness is
modelled structurally by drawing sids from an increasing counter. -/

/-- The server-side session store: the live `(sid, principal)` rows plus the
next sid to be issued. -/
structure SessStore where
  sessions : List (Nat × Principal)
  next : Nat

/-- The session-relevant events of the variant:
* `login p` — a successful `POST /login` or `POST /register` stores
  principal `p` under a freshly issued sid;
* `logout sid` — `POST /logout` destroys the session row for `sid`;
* `request sid` — any other request presenting the cookie `sid`; it only
  reads the store. -/
inductive SEvent where
  | login : Principal → SEvent
  | logout : Nat → SEvent
  | request : Nat → SEvent

/-- One step of the session store. -/
def SessStore.step (s : SessStore) : SEvent → SessStore
  | .login p => ⟨s.sessions ++ [(s.next, p)], s.next + 1⟩
  | .logout sid => ⟨s.sessions.filter (fun q => q.1 != sid), s.next⟩
  | .request _ => s

/-- Run a sequence of events. -/
def SessStore.run (s : SessStore) (evs : List SEvent) : SessStore :=
  evs.foldl SessStore.step s

/-- Whether a request presenting cookie `sid` is treated as authenticated:
the middleware finds a live session row for `sid` (and then exposes its
principal as `req.session.user`). -/
def SessStore.authed (s : SessStore) (sid : Nat) : Bool :=
  s.sessions.any (fun q => q.1 == sid)

/-- Store invariant: every live sid was issued, i.e. is below the sid
counter.  It holds of the empty store and is preserved by every step. -/
def SessStore.wf (s : SessStore) : Prop :=
  ∀ q ∈ s.sessions, q.1 < s.next

/-! ### Helper lemmas -/

theorem find?_append_of_any_eq_false {α : Type} {p : α → Bool} {l₁ : List α}
    (l₂ : List α) (h : l₁.any p = false) :
    (l₁ ++ l₂).find? p = l₂.find? p := by
  induction l₁ with
  | nil => rfl
  | cons a l ih =>
    simp only [List.any_cons, Bool.or_eq_false_iff] at h
    simp only [List.cons_append, List.find?_cons, h.1, ih h.2]

theorem any_filter_eq_false {α : Type} {p g : α → Bool} {l : List α}
    (h : l.any p = false) : (l.filter g).any p = false := by
  induction l with
  | nil => rfl
  | cons a l ih =>
    simp only [List.any_cons, Bool.or_eq_false_iff] at h
    by_cases hg : g a = true
    · simp only [List.filter_cons, hg, if_true, List.any_cons, h.1, ih h.2,
        Bool.or_self]
    · rw [List.filter_cons, if_neg hg]
      exact ih h.2

/-- Normal form of a successful `POST /api/register`: with all three fields
non-empty and the email not yet stored, the handler responds `201` with the
`{message, user:{id, name, email, role}}` body and appends the new row with
the schema-default role `'user'`. -/
theorem apiRegister_success (db : DB) (b : RegisterBody) (hn : b.name ≠ "")
    (he : b.email ≠ "") (hp : b.password ≠ "")
    (hfree : emailTaken db b.email = false) :
    apiRegister db b =
      (⟨201, Json.obj
          [("message", Json.str "User registered successfully"),
           ("user", Json.obj
              [("id", Json.nat db.nextUserId),
               ("name", Json.str b.name),
               ("email", Json.str b.email),
               ("role", Json.str "user")])]⟩,
       { db with
          users := db.users ++
            [⟨db.nextUserId, b.name, b.email, bcryptHash b.password, "user"⟩],
          nextUserId := db.nextUserId + 1 }) := by
  unfold apiRegister
  simp [hn, he, hp, hfree]

/-! ### Claims -/

/-- C1.  For every valid triple `(name, email, password)` with all fields
non-empty and the email not already registered, `POST /api/login` with
`(email, password)` immediately after a successful `POST /api/register` of
`(name, email, password)` succeeds with HTTP 200, and the `user.id` of the
login response equals the `user.id` of the 201 registration response
(namely the freshly assigned serial id). -/
theorem register_then_login_same_id (db : DB) (n e p : String)
    (hn : n ≠ "") (he : e ≠ "") (hp : p ≠ "")
    (hfree : emailTaken db e = false) :
    (apiRegister db ⟨n, e, p, none⟩).1.status = 201 ∧
    (apiLogin (apiRegister db ⟨n, e, p, none⟩).2 e p).status = 200 ∧
    ((apiLogin (apiRegister db ⟨n, e, p, none⟩).2 e p).body.get? "user").bind
        (fun u => u.get? "id")
      = ((apiRegister db ⟨n, e, p, none⟩).1.body.get? "user").bind
          (fun u => u.get? "id") ∧
    ((apiRegister db ⟨n, e, p, none⟩).1.body.get? "user").bind
        (fun u => u.get? "id") = some (Json.nat db.nextUserId) := by
  rw [apiRegister_success db ⟨n, e, p, none⟩ hn he hp hfree]
  have hany : db.users.any (fun u => u.email == e) = false := hfree
  refine ⟨rfl, ?_, ?_, ?_⟩ <;>
    simp [apiLogin, he, hp, find?_append_of_any_eq_false _ hany,
      List.find?_cons, bcryptCompare, bcryptHash, Json.get?]

/-- C1 witness: registering Asha into the empty database and logging in
right away succeeds and returns the same id 1. -/
theorem register_then_login_same_id_witness :
    emailTaken emptyDB "asha@example.com" = false ∧
    ((apiRegister emptyDB ⟨"Asha", "asha@example.com", "Secret123", none⟩).1.status = 201 ∧
     (apiLogin (apiRegister emptyDB ⟨"Asha", "asha@example.com", "Secret123", none⟩).2
        "asha@example.com" "Secret123").status = 200 ∧
     ((apiLogin (apiRegister emptyDB ⟨"Asha", "asha@example.com", "Secret123", none⟩).2
          "asha@example.com" "Secret123").body.get? "user").bind (fun u => u.get? "id")
       = ((apiRegister emptyDB ⟨"Asha", "asha@example.com", "Secret123", none⟩).1.body.get?
            "user").bind (fun u => u.get? "id") ∧
     ((apiRegister emptyDB ⟨"Asha", "asha@example.com", "Secret123", none⟩).1.body.get?
          "user").bind (fun u => u.get? "id") = some (Json.nat emptyDB.nextUserId)) :=
  ⟨rfl, register_then_login_same_id emptyDB "Asha" "asha@example.com" "Secret123"
    (by decide) (by decide) (by decide) rfl⟩

/-- C8.  For every registration request in which name, email or password is
missing/empty, `POST /api/register` fails with HTTP 400 and the exact
validation body, and performs no write: the returned database state —
users table included — is the state before the call. -/
theorem register_validation_no_write (db : DB) (b : RegisterBody)
    (h : b.name = "" ∨ b.email = "" ∨ b.password = "") :
    (apiRegister db b).1 =
      ⟨400, Json.obj [("error", Json.str "Name, email, and password are required.")]⟩ ∧
    (apiRegister db b).2 = db := by
  unfold apiRegister
  rw [if_pos h]
  exact ⟨rfl, rfl⟩

/-- C8 witness: registering with an empty name responds 400 and leaves the
empty database untouched. -/
theorem register_validation_no_write_witness :
    ("" = "" ∨ "asha@example.com" = "" ∨ ("pw" : String) = "") ∧
    ((apiRegister emptyDB ⟨"", "asha@example.com", "pw", none⟩).1 =
        ⟨400, Json.obj [("error", Json.str "Name, email, and password are required.")]⟩ ∧
     (apiRegister emptyDB ⟨"", "asha@example.com", "pw", none⟩).2 = emptyDB) :=
  ⟨Or.inl rfl,
   register_validation_no_write emptyDB ⟨"", "asha@example.com", "pw", none⟩ (Or.inl rfl)⟩

/-- A concrete one-user database: Asha, registered with password
`Secret123`, serial user sequence at 2. -/
def dbW : DB :=
  ⟨[⟨1, "Asha", "asha@example.com", bcryptHash "Secret123", "user"⟩], 2, [], 1⟩

/-- C2 counterexample.  The claim quantifies over *every* registration
request whose email is already stored, "regardless of whether the name or
password differ".  A request whose email duplicates Asha's but whose name is
empty is such a request, yet the handler's field validation fires first and
responds 400, not the claimed 409. -/
theorem register_duplicate_email_counterexample :
    emailTaken dbW "asha@example.com" = true ∧
    (apiRegister dbW ⟨"", "asha@example.com", "pw2", none⟩).1.status = 400 ∧
    (apiRegister dbW ⟨"", "asha@example.com", "pw2", none⟩).1.status ≠ 409 :=
  ⟨rfl, rfl, by decide⟩

/-- C2 (amended).  For every registration request with non-empty name,
email and password whose email equals the email of an already-stored user,
the handler catches pg error 23505 and responds HTTP 409
`{error: "Email already registered"}` — a handled response, not a crash,
leaving the store unchanged — regardless of the request's name, password and
any submitted role. -/
theorem register_duplicate_email (db : DB) (b : RegisterBody)
    (hn : b.name ≠ "") (he : b.email ≠ "") (hp : b.password ≠ "")
    (hdup : emailTaken db b.email = true) :
    (apiRegister db b).1 =
      ⟨409, Json.obj [("error", Json.str "Email already registered")]⟩ ∧
    (apiRegister db b).2 = db := by
  unfold apiRegister
  simp [hn, he, hp, hdup]

/-- C2 witness: re-registering Asha's email with a different name and
password yields the handled 409 and leaves the store unchanged. -/
theorem register_duplicate_email_witness :
    emailTaken dbW "asha@example.com" = true ∧
    ((apiRegister dbW ⟨"Someone Else", "asha@example.com", "other", none⟩).1 =
        ⟨409, Json.obj [("error", Json.str "Email already registered")]⟩ ∧
     (apiRegister dbW ⟨"Someone Else", "asha@example.com", "other", none⟩).2 = dbW) :=
  ⟨rfl,
   register_duplicate_email dbW ⟨"Someone Else", "asha@example.com", "other", none⟩
     (by decide) (by decide) (by decide) rfl⟩

/-- C9.  The stateless `POST /api/register` never reads a submitted `role`
field: the handler's result is identical for any two submitted roles, and on
a successful registration the row stored in the users table carries the
schema default role `'user'` and the 201 response body's `user.role` is
`"user"`. -/
theorem api_register_ignores_role (db : DB) (n e p : String)
    (hn : n ≠ "") (he : e ≠ "") (hp : p ≠ "")
    (hfree : emailTaken db e = false) :
    (∀ r₁ r₂ : Option String,
        apiRegister db ⟨n, e, p, r₁⟩ = apiRegister db ⟨n, e, p, r₂⟩) ∧
    ∀ r : Option String,
      (apiRegister db ⟨n, e, p, r⟩).2.users =
        db.users ++ [⟨db.nextUserId, n, e, bcryptHash p, "user"⟩] ∧
      ((apiRegister db ⟨n, e, p, r⟩).1.body.get? "user").bind
          (fun u => u.get? "role") = some (Json.str "user") := by
  refine ⟨fun r₁ r₂ => rfl, fun r => ?_⟩
  rw [apiRegister_success db ⟨n, e, p, r⟩ hn he hp hfree]
  exact ⟨rfl, rfl⟩

/-- C9 witness: registering with a submitted role of `"farm"` stores and
returns role `'user'`, and the response/state equal those of a no-role
registration. -/
theorem api_register_ignores_role_witness :
    emailTaken emptyDB "asha@example.com" = false ∧
    (apiRegister emptyDB ⟨"Asha", "asha@example.com", "Secret123", some "farm"⟩ =
       apiRegister emptyDB ⟨"Asha", "asha@example.com", "Secret123", none⟩) ∧
    (apiRegister emptyDB ⟨"Asha", "asha@example.com", "Secret123", some "farm"⟩).2.users =
      emptyDB.users ++ [⟨emptyDB.nextUserId, "Asha", "asha@example.com",
        bcryptHash "Secret123", "user"⟩] ∧
    ((apiRegister emptyDB ⟨"Asha", "asha@example.com", "Secret123",
          some "farm"⟩).1.body.get? "user").bind (fun u => u.get? "role") =
      some (Json.str "user") :=
  ⟨rfl,
   (api_register_ignores_role emptyDB "Asha" "asha@example.com" "Secret123"
      (by decide) (by decide) (by decide) rfl).1 (some "farm") none,
   (api_register_ignores_role emptyDB "Asha" "asha@example.com" "Secret123"
      (by decide) (by decide) (by decide) rfl).2 (some "farm")⟩

/-- C3 counterexample.  The claim quantifies over every pair of login
requests with the stated email properties.  A request for Asha's stored
email with the (wrong) empty password is answered by the field validation
with status 400 and body `{error: "Email and password required"}`, while a
request for an absent email (with a non-empty password) is answered 401
`{error: "Invalid credentials"}` — the two error responses differ, and the
first is not the claimed 401. -/
theorem login_uniform_error_counterexample :
    (dbW.users.find? (fun v => v.email == "asha@example.com")).isSome = true ∧
    bcryptCompare "" (bcryptHash "Secret123") = false ∧
    emailTaken dbW "ghost@example.com" = false ∧
    (apiLogin dbW "asha@example.com" "").status = 400 ∧
    (apiLogin dbW "ghost@example.com" "x").status = 401 ∧
    (apiLogin dbW "asha@example.com" "").status ≠
      (apiLogin dbW "ghost@example.com" "x").status :=
  ⟨rfl, rfl, rfl, rfl, rfl, by decide⟩

/-- C3 (amended).  For every store state and every pair of login requests
with non-empty email and password fields — one whose email is stored but
whose password fails the bcrypt comparison, one whose email is absent from
the store — the two responses are identical: both are exactly
`401 {error: "Invalid credentials"}`, so the response does not reveal which
part of the credentials failed.  (A request with an empty field is instead
answered 400 by the field validation before any credential check.) -/
theorem login_uniform_error (db : DB) (e₁ p₁ e₂ p₂ : String)
    (he₁ : e₁ ≠ "") (hp₁ : p₁ ≠ "") (he₂ : e₂ ≠ "") (hp₂ : p₂ ≠ "")
    (u : UserRow) (hu : db.users.find? (fun v => v.email == e₁) = some u)
    (hwrong : bcryptCompare p₁ u.password_hash = false)
    (habsent : emailTaken db e₂ = false) :
    apiLogin db e₁ p₁ = apiLogin db e₂ p₂ ∧
    apiLogin db e₁ p₁ = ⟨401, Json.obj [("error", Json.str "Invalid credentials")]⟩ := by
  have hnone : db.users.find? (fun v => v.email == e₂) = none := by
    rw [List.find?_eq_none]
    intro x hx hxe
    have hall : db.users.any (fun u => u.email == e₂) = true :=
      List.any_eq_true.mpr ⟨x, hx, hxe⟩
    simp only [emailTaken, hall] at habsent
    exact absurd habsent (by decide)
  constructor <;> simp [apiLogin, he₁, hp₁, he₂, hp₂, hu, hwrong, hnone]

/-- C3 witness: against the one-user store, a wrong-password login for
Asha's email and a login for an absent email produce the identical
`401 {error: "Invalid credentials"}` response. -/
theorem login_uniform_error_witness :
    dbW.users.find? (fun v => v.email == "asha@example.com") =
      some ⟨1, "Asha", "asha@example.com", bcryptHash "Secret123", "user"⟩ ∧
    bcryptCompare "wrong"
      (UserRow.mk 1 "Asha" "asha@example.com" (bcryptHash "Secret123") "user").password_hash
        = false ∧
    emailTaken dbW "ghost@example.com" = false ∧
    (apiLogin dbW "asha@example.com" "wrong" = apiLogin dbW "ghost@example.com" "x" ∧
     apiLogin dbW "asha@example.com" "wrong" =
       ⟨401, Json.obj [("error", Json.str "Invalid credentials")]⟩) :=
  ⟨rfl, rfl, rfl,
   login_uniform_error dbW "asha@example.com" "wrong" "ghost@example.com" "x"
     (by decide) (by decide) (by decide) (by decide)
     ⟨1, "Asha", "asha@example.com", bcryptHash "Secret123", "user"⟩ rfl rfl rfl⟩

/-- C7.  For every store state, every row of the `GET /api/users` response
array is an object whose keys are exactly `id`, `name`, `email` — in
particular neither `password_hash` nor `role` ever appears in the response
body. -/
theorem users_listing_fields (db : DB) (j : Json)
    (hj : j ∈ (apiUsers db).body.elems) :
    j.keys = ["id", "name", "email"] ∧
    "password_hash" ∉ j.keys ∧ "role" ∉ j.keys := by
  simp only [apiUsers, Json.elems, List.mem_map] at hj
  obtain ⟨u, hu, rfl⟩ := hj
  refine ⟨rfl, ?_, ?_⟩ <;> simp [Json.keys]

/-- C7 witness: the single row listed for the one-user store has exactly the
keys id, name, email. -/
theorem users_listing_fields_witness :
    Json.obj [("id", Json.nat 1), ("name", Json.str "Asha"),
      ("email", Json.str "asha@example.com")] ∈ (apiUsers dbW).body.elems ∧
    ((Json.obj [("id", Json.nat 1), ("name", Json.str "Asha"),
        ("email", Json.str "asha@example.com")]).keys = ["id", "name", "email"] ∧
     "password_hash" ∉ (Json.obj [("id", Json.nat 1), ("name", Json.str "Asha"),
        ("email", Json.str "asha@example.com")]).keys ∧
     "role" ∉ (Json.obj [("id", Json.nat 1), ("name", Json.str "Asha"),
        ("email", Json.str "asha@example.com")]).keys) :=
  ⟨List.mem_singleton.mpr rfl,
   users_listing_fields dbW _ (List.mem_singleton.mpr rfl)⟩

/-- C6.  On the user-only dashboard route, a request carrying an active
session whose principal's role is not `'user'` is answered with exactly the
same response as a request carrying no session at all: the identical
redirect `/login?error=Unauthorized access`, revealing nothing about whether
the failure was a missing session or a role mismatch. -/
theorem user_dashboard_uniform_rejection (db : DB) (p : Principal)
    (hrole : p.role ≠ "user") :
    userDashboard (some p) db = userDashboard none db ∧
    userDashboard (some p) db = .redirect "/login?error=Unauthorized access" := by
  constructor <;> simp [userDashboard, hrole]

/-- C6 witness: a farm-role principal is rejected from the user dashboard
exactly like an unauthenticated request. -/
theorem user_dashboard_uniform_rejection_witness :
    (Principal.mk 7 "Farmer Fred" "fred@farm.example" "farm").role ≠ "user" ∧
    (userDashboard (some ⟨7, "Farmer Fred", "fred@farm.example", "farm"⟩) dbW =
       userDashboard none dbW ∧
     userDashboard (some ⟨7, "Farmer Fred", "fred@farm.example", "farm"⟩) dbW =
       .redirect "/login?error=Unauthorized access") :=
  ⟨by decide,
   user_dashboard_uniform_rejection dbW ⟨7, "Farmer Fred", "fred@farm.example", "farm"⟩
     (by decide)⟩

/-- C10.  In the session variant, a successful `POST /register` responds
with a redirect to `/user/dashboard` for every submitted role; in
particular a user who registers with role `'farm'` gets a session principal
of role `'farm'` and is redirected to a dashboard whose guard rejects that
principal — even though a successful `POST /login` by the same credentials
redirects the farm-role user to `/farm/dashboard`. -/
theorem session_register_redirects_to_user_dashboard (db : DB) (n e p : String)
    (hn : n ≠ "") (he : e ≠ "") (hp : p ≠ "")
    (hfree : emailTaken db e = false) :
    (∀ r : String,
        (sessionRegister db n e p r).1 = .redirect "/user/dashboard") ∧
    (sessionRegister db n e p "farm").2.2 = some ⟨db.nextUserId, n, e, "farm"⟩ ∧
    userDashboard (sessionRegister db n e p "farm").2.2
        (sessionRegister db n e p "farm").2.1 =
      .redirect "/login?error=Unauthorized access" ∧
    (sessionLogin (sessionRegister db n e p "farm").2.1 e p).1 =
      .redirect "/farm/dashboard" := by
  have hany : db.users.any (fun u => u.email == e) = false := hfree
  refine ⟨fun r => ?_, ?_, ?_, ?_⟩
  · simp [sessionRegister, hn, he, hp, hfree]
  · simp [sessionRegister, hn, he, hp, hfree]
  · simp [sessionRegister, userDashboard, hn, he, hp, hfree]
  · simp [sessionRegister, sessionLogin, hn, he, hp, hfree,
      find?_append_of_any_eq_false _ hany, List.find?_cons,
      bcryptCompare, bcryptHash]

/-- C10 witness: Fatima registers with role farm; the register response is
the `/user/dashboard` redirect, the dashboard guard rejects her session, and
logging in with the same credentials redirects to `/farm/dashboard`. -/
theorem session_register_redirects_to_user_dashboard_witness :
    emailTaken emptyDB "fatima@farm.example" = false ∧
    ((sessionRegister emptyDB "Fatima" "fatima@farm.example" "Secret123" "farm").1 =
       .redirect "/user/dashboard" ∧
     (sessionRegister emptyDB "Fatima" "fatima@farm.example" "Secret123" "farm").2.2 =
       some ⟨emptyDB.nextUserId, "Fatima", "fatima@farm.example", "farm"⟩ ∧
     userDashboard
        (sessionRegister emptyDB "Fatima" "fatima@farm.example" "Secret123" "farm").2.2
        (sessionRegister emptyDB "Fatima" "fatima@farm.example" "Secret123" "farm").2.1 =
       .redirect "/login?error=Unauthorized access" ∧
     (sessionLogin
        (sessionRegister emptyDB "Fatima" "fatima@farm.example" "Secret123" "farm").2.1
        "fatima@farm.example" "Secret123").1 = .redirect "/farm/dashboard") :=
  ⟨rfl,
   (session_register_redirects_to_user_dashboard emptyDB "Fatima" "fatima@farm.example"
      "Secret123" (by decide) (by decide) (by decide) rfl).1 "farm",
   ((session_register_redirects_to_user_dashboard emptyDB "Fatima" "fatima@farm.example"
      "Secret123" (by decide) (by decide) (by decide) rfl).2.1),
   ((session_register_redirects_to_user_dashboard emptyDB "Fatima" "fatima@farm.example"
      "Secret123" (by decide) (by decide) (by decide) rfl).2.2.1),
   ((session_register_redirects_to_user_dashboard emptyDB "Fatima" "fatima@farm.example"
      "Secret123" (by decide) (by decide) (by decide) rfl).2.2.2)⟩

/-- C4: evaluation of the seeding routine at the failing input.  Running
`seedProducts` twice from the empty database leaves **two** rows per seeded
product name (12 rows in total), not one: the `products` table declares no
unique constraint on `name`, so `ON CONFLICT DO NOTHING` never suppresses a
duplicate and every run inserts all six rows again. -/
theorem seed_twice_duplicates_rows :
    (seedProducts (seedProducts emptyDB)).products.length = 12 ∧
    seedList.all (fun prod =>
      ((seedProducts (seedProducts emptyDB)).products.filter
          (fun r => r.name == prod.1)).length == 2) = true :=
  ⟨rfl, rfl⟩

/-! ### C5: logout is terminal -/

theorem SessStore.wf_step (s : SessStore) (hwf : s.wf) (ev : SEvent) :
    (s.step ev).wf := by
  cases ev with
  | login p =>
    intro q hq
    simp only [step] at hq ⊢
    rcases List.mem_append.mp hq with h | h
    · exact Nat.lt_succ_of_lt (hwf q h)
    · rw [List.mem_singleton.mp h]
      exact Nat.lt_succ_self _
  | logout sid =>
    intro q hq
    exact hwf q (List.mem_of_mem_filter hq)
  | request sid => exact hwf

theorem SessStore.authed_false_step (s : SessStore) (sid : Nat)
    (hlt : sid < s.next) (hdead : s.authed sid = false) (ev : SEvent) :
    (s.step ev).authed sid = false ∧ sid < (s.step ev).next := by
  cases ev with
  | login p =>
    refine ⟨?_, Nat.lt_succ_of_lt hlt⟩
    simp only [step, authed, List.any_append, List.any_cons, List.any_nil]
    have hne : (s.next == sid) = false := by
      simp [Nat.ne_of_gt hlt]
    simp only [authed] at hdead
    simp [hdead, hne]
  | logout tid =>
    exact ⟨any_filter_eq_false hdead, hlt⟩
  | request tid => exact ⟨hdead, hlt⟩

theorem SessStore.authed_false_run (sid : Nat) (evs : List SEvent) :
    ∀ s : SessStore, sid < s.next → s.authed sid = false →
      (s.run evs).authed sid = false := by
  induction evs with
  | nil => intro s _ h; exact h
  | cons ev evs ih =>
    intro s hlt hdead
    have hstep := s.authed_false_step sid hlt hdead ev
    exact ih (s.step ev) hstep.2 hstep.1

/-- C5.  Once a session is destroyed by an explicit logout, it is terminal:
starting from any well-formed session store and any issued sid, after the
logout step for that sid **no** later sequence of events (further logins and
registrations issuing fresh sids, logouts, ordinary requests) ever makes a
request presenting the same session token authenticated again. -/
theorem destroyed_session_never_authenticates (s : SessStore)
    (sid : Nat) (hissued : sid < s.next) (evs : List SEvent) :
    ((s.step (SEvent.logout sid)).run evs).authed sid = false := by
  have hdead : (s.step (SEvent.logout sid)).authed sid = false := by
    show ((s.sessions.filter (fun q => q.1 != sid)).any (fun q => q.1 == sid)) = false
    induction s.sessions with
    | nil => rfl
    | cons a l ih =>
      by_cases ha : a.1 = sid
      · rw [List.filter_cons, if_neg (by simp [ha])]
        exact ih
      · rw [List.filter_cons, if_pos (by simp [ha]), List.any_cons]
        simp [ha, ih]
  exact SessStore.authed_false_run sid evs (s.step (SEvent.logout sid)) hissued hdead

/-- A concrete principal for the C5 witness. -/
def pW : Principal := ⟨1, "Asha", "asha@example.com", "user"⟩

/-- C5 witness: in a store holding Asha's session under sid 0, after the
logout of sid 0, a later login (issuing a fresh sid) and a request
presenting the destroyed token leave that token unauthenticated. -/
theorem destroyed_session_never_authenticates_witness :
    0 < (SessStore.mk [(0, pW)] 1).next ∧
    (((SessStore.mk [(0, pW)] 1).step (SEvent.logout 0)).run
        [SEvent.login pW, SEvent.request 0]).authed 0 = false :=
  ⟨by decide,
   destroyed_session_never_authenticates ⟨[(0, pW)], 1⟩ 0 (by decide)
     [SEvent.login pW, SEvent.request 0]⟩
